import Mathlib

/-!
Shallow embedding of the ArtAtlas backend (python) for checking its
natural-language specification.  Documents fresh from the document store are
modelled as association lists of string keys and BSON-like values; fallible
python code is modelled with `Except`; external effects (HTTP fetches, the
LLM call, the `$sample` stage) are oracle parameters.  Calendar dates are
modelled by their day index (a `Nat`); an ISO date *string* holding day `d`
is the constructor `BVal.vIsoDate d`, while a parsed python `datetime.date`
object for day `d` is `PyDateVal.pyDate d` — keeping the string/object
distinction that the source code trips over.
-/

namespace ArtAtlas

/-- BSON-like values appearing in documents of this service.  `vOid s` is an
ObjectId whose canonical (lower-case) hex string is `s`; `vIsoDate d` is the
ISO-8601 date string denoting calendar day `d`. Nested subdocuments are not
needed by any scenario modelled here. -/
inductive BVal where
  | vStr (s : String)
  | vOid (hex : String)
  | vNat (n : Nat)
  | vNull
  | vStrList (l : List String)
  | vIsoDate (day : Nat)
  deriving DecidableEq, Repr

/-- A raw document: an association list with (by construction) distinct keys,
mirroring a python dict in insertion order. -/
abbrev Doc := List (String × BVal)

/-- First-match key lookup, as python dict access does. -/
def dlookup (k : String) : Doc → Option BVal
  | [] => none
  | (k', v) :: rest => if k' = k then some v else dlookup k rest

/-- Python dict assignment `d[k] = v`: replace in place if the key exists,
else append at the end (insertion order). -/
def setKey : Doc → String → BVal → Doc
  | [], k, v => [(k, v)]
  | (k', v') :: rest, k, v =>
      if k' = k then (k, v) :: rest else (k', v') :: setKey rest k v

/-- Python `del d[k]` (key assumed present or absent; removal keeps order). -/
def delKey (k : String) (d : Doc) : Doc := d.filter (fun kv => kv.1 ≠ k)

/-- The keys of a document, in order. -/
def keysOf (d : Doc) : List String := d.map Prod.fst

/-- Python truthiness of a value found in a document (`None`, empty string,
zero and empty list are falsy; ObjectIds and nonempty date strings truthy). -/
def pyTruthy : BVal → Bool
  | .vStr s => s ≠ ""
  | .vOid _ => true
  | .vNat n => n ≠ 0
  | .vNull => false
  | .vStrList l => l ≠ []
  | .vIsoDate _ => true

/-- Truthiness of `d.get(k)` (absent key gives `None`, which is falsy). -/
def pyTruthyAt (d : Doc) (k : String) : Bool :=
  match dlookup k d with
  | none => false
  | some v => pyTruthy v

/-- Python `str(...)` on the modelled values (`str(ObjectId(h))` is `h`). -/
def pyStrOf : BVal → String
  | .vStr s => s
  | .vOid h => h
  | .vNat n => toString n
  | .vNull => "None"
  | .vStrList _ => "[...]"
  | .vIsoDate d => "date-" ++ toString d

/-- Python `s.startswith(p)`, computed on the character lists. -/
def strStarts (s p : String) : Bool := List.isPrefixOf p.data s.data

/-- Lower-case a hex digit (ObjectId hex strings compare case-insensitively
because the id itself is binary). -/
def hexCharLower (c : Char) : Char :=
  if c = 'A' then 'a' else if c = 'B' then 'b' else if c = 'C' then 'c'
  else if c = 'D' then 'd' else if c = 'E' then 'e' else if c = 'F' then 'f'
  else c

/-- Canonical (lower-case) spelling of an ObjectId hex string. -/
def hexLower (s : String) : String := String.mk (s.data.map hexCharLower)

/-- Errors surfaced by the embedded python code. -/
inductive PyErr where
  | http (status : Nat) (detail : String)
  | typeError (msg : String)
  | validationError (msg : String)
  | keyError (k : String)
  | valueError (msg : String)
  | operationFailure (msg : String)
  deriving DecidableEq, Repr

/-! ## Cursor/document normalizer (`engine/utils.py`, `parse_result`) -/

/-- Input to `parse_result`: either a single raw document or a list of them. -/
inductive CursorInput where
  | single (d : Doc)
  | docList (ds : List Doc)
  deriving DecidableEq, Repr

/-- The per-document body of `parse_result`: `doc["db_id"] = str(doc["_id"])`
then `del doc["_id"]`; a document without an `_id` key raises `KeyError`. -/
def normalizeDoc (d : Doc) : Except PyErr Doc :=
  match dlookup "_id" d with
  | none => .error (.keyError "_id")
  | some x => .ok (delKey "_id" (setKey d "db_id" (.vStr (pyStrOf x))))

/-- Embeds `parse_result`.  The list branch fires only for a *nonempty* list;
an empty list falls through to the single-document code, whose first step
`cursor["_id"]` indexes a list with a string key — a python `TypeError`. -/
def parse_result : CursorInput → Except PyErr CursorInput
  | .docList (d :: ds) => do
      let outs ← (d :: ds).mapM normalizeDoc
      return .docList outs
  | .docList [] =>
      .error (.typeError "list indices must be integers or slices, not str")
  | .single d => do
      let out ← normalizeDoc d
      return .single out

/-! ## Scraper year extraction (`av_adv.py` / `av_gem.py`)

The regex is `\((\d{4})\)$|\((\d{4})[-–]\d{2,4}\)$|\(Circa (\d{4}).*?\)$`
used with `re.search`, then `group(1) or group(2) or group(3)`.  `re.search`
returns the leftmost match; at each position the alternatives are tried in
order.  Each alternative is anchored at end of string.  `\d` is modelled as
an ASCII digit and titles are assumed newline-free. -/

/-- Alternative 1, from a given start position: `\((\d{4})\)$`. -/
def tryYearAlt1 : List Char → Option String
  | ['(', a, b, c, d, ')'] =>
      if a.isDigit && b.isDigit && c.isDigit && d.isDigit then
        some (String.mk [a, b, c, d])
      else none
  | _ => none

/-- Alternative 2, from a given start position: `\((\d{4})[-–]\d{2,4}\)$`
(a four-digit year, a hyphen or en-dash, then two to four digits and a
closing parenthesis ending the string). -/
def tryYearAlt2 : List Char → Option String
  | '(' :: a :: b :: c :: d :: dash :: rest =>
      if a.isDigit && b.isDigit && c.isDigit && d.isDigit
          && (dash = '-' || dash = '–')
          && rest.length ≥ 3 && rest.length ≤ 5
          && rest.getLast? = some ')'
          && rest.dropLast.all Char.isDigit then
        some (String.mk [a, b, c, d])
      else none
  | _ => none

/-- Alternative 3, from a given start position: `\(Circa (\d{4}).*?\)$`
(the literal `(Circa `, four digits, then anything up to a closing
parenthesis that ends the string). -/
def tryYearAlt3 : List Char → Option String
  | '(' :: 'C' :: 'i' :: 'r' :: 'c' :: 'a' :: ' ' :: a :: b :: c :: d :: rest =>
      if a.isDigit && b.isDigit && c.isDigit && d.isDigit
          && rest.length ≥ 1 && rest.getLast? = some ')' then
        some (String.mk [a, b, c, d])
      else none
  | _ => none

/-- Leftmost search: scan start positions left to right, trying the three
alternatives in order at each position. -/
def searchYear : List Char → Option String
  | [] => none
  | c :: rest =>
      tryYearAlt1 (c :: rest) <|> tryYearAlt2 (c :: rest)
        <|> tryYearAlt3 (c :: rest) <|> searchYear rest

/-- Year extraction applied to an artwork title (`None` when no alternative
matches anywhere). -/
def extract_year (title : String) : Option String := searchYear title.data

/-! ## Image proxy (`backend/engine/art_managers/images.py`) -/

/-- Outcome of the outbound `httpx` GET, as an oracle: a timeout, another
transport error carrying its message, or a response with its final status,
optional content-type header and body bytes. -/
inductive FetchOutcome where
  | timeout
  | transportError (msg : String)
  | response (status : Nat) (contentType : Option String) (body : List Nat)
  deriving DecidableEq, Repr

/-- A successfully proxied image: outgoing media type and the streamed bytes. -/
structure StreamedImage where
  media_type : String
  body : List Nat
  deriving DecidableEq, Repr

/-- Embeds `ProcessImages.proxy_image`.  The URL-scheme test happens before
the fetch; `raise_for_status` raises for every non-2xx final status and that
status is re-raised as the proxy status; a 2xx response whose content-type is
missing or does not start with `image/` is rejected as 415; otherwise the
body is streamed with the upstream content type. -/
def proxy_image (url : String) (fetch : FetchOutcome) : Except PyErr StreamedImage :=
  if ¬ (strStarts url "http://" || strStarts url "https://") then
    .error (.http 400 "Invalid URL scheme. Must be HTTP or HTTPS.")
  else
    match fetch with
    | .timeout => .error (.http 504 "Request to external image source timed out.")
    | .transportError m =>
        .error (.http 502 ("Failed to retrieve image from external source: " ++ m))
    | .response st ct body =>
        if st < 200 ∨ 300 ≤ st then
          .error (.http st ("External image source returned error: " ++ toString st))
        else
          match ct with
          | none => .error (.http 415 "Proxied content is not a supported image type.")
          | some c =>
              if ¬ strStarts c "image/" then
                .error (.http 415 "Proxied content is not a supported image type.")
              else
                .ok ⟨c, body⟩

/-! ## Batched artwork fetch (`ArtManagerService.fetch_artworks_by_ids`) -/

/-- Syntactic validity of a store identifier given as a string: exactly the
24-character hex strings (what `bson.ObjectId` accepts from a `str`). -/
def is_valid_object_id (s : String) : Bool :=
  s.length = 24 && s.data.all (fun c =>
    c.isDigit || ('a' ≤ c && c ≤ 'f') || ('A' ≤ c && c ≤ 'F'))

/-- The `bson.errors.InvalidId` message for a rejected string (quote marks
around the value elided). -/
def invalid_oid_msg (v : String) : String :=
  v ++ " is not a valid ObjectId, it must be a 12-byte input or a 24-character hex string"

/-- Does a raw document's `_id` (an ObjectId) belong to the requested id
list?  ObjectId equality is case-insensitive on the hex spelling. -/
def docIdRequested (idList : List String) (d : Doc) : Bool :=
  match dlookup "_id" d with
  | some (.vOid h) => (idList.map hexLower).contains (hexLower h)
  | _ => false

/-- Embeds `ArtManagerService.fetch_artworks_by_ids`: a single id is wrapped
in a list; an empty list returns `[]` before any store access; converting the
ids raises (wrapped into a `ValueError` naming the offending value) at the
first syntactically invalid one; otherwise one `$in` query returns the
requested documents that exist, in store order. -/
def fetch_artworks_by_ids (ids : String ⊕ List String) (artworks : List Doc) :
    Except PyErr (List Doc) :=
  let idList := match ids with
    | .inl s => [s]
    | .inr l => l
  if idList = [] then .ok []
  else
    match idList.find? (fun s => ¬ is_valid_object_id s) with
    | some bad => .error (.valueError ("One or more IDs are invalid: " ++ invalid_oid_msg bad))
    | none => .ok (artworks.filter (docIdRequested idList))

/-! ## The `ArtworkData` pydantic model (`engine/models/artworks_model.py`)

A validated `ArtworkData` instance is represented as an association list whose
keys are exactly the model's field names, in declaration order, each holding
its value (`vNull` for python `None`). -/

/-- Accepted value shapes per field.  `tStr` is `Optional[str]` (pydantic v2
does not coerce ints or ObjectIds to `str`); `tStrList` is
`Optional[List[str]]`; `tObj` marks the two nested-object fields, whose only
representable value in this embedding is `None`. -/
inductive FType where
  | tStr
  | tStrList
  | tObj
  deriving DecidableEq, Repr

/-- The fields of `ArtworkData` in declaration order with their shapes.  Every
alias equals the field name except `id`, whose alias is `_id`. -/
def artworkFields : List (String × FType) :=
  [("artwork_title", .tStr), ("artist_name", .tStr), ("year", .tStr),
   ("medium", .tStr), ("dimensions", .tStr), ("current_location", .tStr),
   ("artwork_url", .tStr), ("image_url", .tStr), ("details_in_image", .tStr),
   ("description", .tStr), ("interpretation", .tStr), ("mood", .tStr),
   ("keywords", .tStrList), ("historical_context", .tObj),
   ("artist_biography", .tStr), ("tour_guide_explanation", .tObj),
   ("style", .tStr), ("category", .tStr), ("id", .tStr),
   ("artworks_id", .tStr), ("artist_url", .tStr)]

/-- The `convert_objectid_to_str` before-validator on `id`: an ObjectId is
rendered as its hex string, anything else passes through. -/
def normId : BVal → BVal
  | .vOid h => .vStr h
  | v => v

/-- Does a value fit a field shape (absent fields were defaulted to `vNull`
before this check)? -/
def fieldOk : FType → BVal → Bool
  | .tStr, .vStr _ => true
  | .tStr, .vNull => true
  | .tStrList, .vStrList _ => true
  | .tStrList, .vNull => true
  | .tObj, .vNull => true
  | _, _ => false

/-- The raw value validation sees for a field: for `id` the alias `_id` is
consulted first, then (populate-by-name) the field name, and the ObjectId
validator is applied; other fields read their own key; absent means `None`. -/
def rawFieldVal (input : Doc) (f : String) : BVal :=
  if f = "id" then
    normId (((dlookup "_id" input).orElse (fun _ => dlookup "id" input)).getD .vNull)
  else (dlookup f input).getD .vNull

/-- Embeds `ArtworkData(**input)`: unknown keys are ignored, every declared
field is read as above and type-checked; `none` is a pydantic
`ValidationError`. -/
def validateArtworkData (input : Doc) : Option Doc :=
  if artworkFields.all (fun ft => fieldOk ft.2 (rawFieldVal input ft.1)) then
    some (artworkFields.map (fun ft => (ft.1, rawFieldVal input ft.1)))
  else none

/-- Embeds `model_dump()` on a validated instance: field names as keys,
`None` values kept — the identity on this representation. -/
def modelDumpPlain (a : Doc) : Doc := a

/-- Embeds `model_dump(exclude_none=True, by_alias=True)`: drop `None`
fields and rename `id` to its alias `_id`. -/
def modelDumpAliasNoNone (a : Doc) : Doc :=
  (a.filter (fun kv => kv.2 ≠ BVal.vNull)).map
    (fun kv => (if kv.1 = "id" then "_id" else kv.1, kv.2))

/-! ## LLM enrichment worker (`engine/llm/llm_workers.py`) -/

/-- Copy every entry of `l` over `acc` in order, python-dict style: the loop
`for k, v in l.items(): acc[k] = v`. -/
def stompOriginal (l acc : Doc) : Doc :=
  l.foldl (fun acc kv => setKey acc kv.1 kv.2) acc

/-- The merge in `llm_generate_artwork_metadata` (lines 160-177): iterate the
original raw document; `_id` (when not `None`) is stringified and always
written into the parsed LLM result; every other original field is written
only where the LLM result lacks the key or holds `None` there. -/
def mergeLlmWithOriginal (resultDict : Doc) (original : Doc) : Doc :=
  original.foldl (fun acc kv =>
    if kv.1 = "_id" ∧ kv.2 ≠ BVal.vNull then
      setKey acc kv.1 (.vStr (pyStrOf kv.2))
    else if (dlookup kv.1 acc).isNone ∨ dlookup kv.1 acc = some BVal.vNull then
      setKey acc kv.1 kv.2
    else acc) resultDict

/-- Embeds `llm_generate_artwork_metadata`.  The oracle `llmOutcome` stands
for the image fetch, the model call and the JSON parse together: `.ok d` is
the parsed response dictionary, `.error` any exception raised on that path.
A falsy `image_url` in the payload raises a `ValueError` before any network
use; after the merge, schema validation failure raises. -/
def llm_generate_artwork_metadata (payload : Doc) (llmOutcome : Except String Doc) :
    Except PyErr Doc :=
  if ¬ pyTruthyAt payload "image_url" then
    .error (.valueError "Image URL is required to generate artwork metadata.")
  else
    match llmOutcome with
    | .error e => .error (.valueError e)
    | .ok resultDict =>
        match validateArtworkData (mergeLlmWithOriginal resultDict payload) with
        | none => .error (.validationError "ArtworkData")
        | some a => .ok a

/-! ## User model and manager (`engine/models/user_model.py`,
`engine/managers/user_manager.py`) -/

/-- Subscription statuses. -/
inductive SubStatus where
  | active
  | inactive
  | free_tier
  deriving DecidableEq, Repr

/-- The wire string of a status (`.value`). -/
def SubStatus.value : SubStatus → String
  | .active => "active"
  | .inactive => "inactive"
  | .free_tier => "free_tier"

/-- A python value sitting in a date-typed slot: either a parsed
`datetime.date` object or an ISO date string, both denoting day `day`.
Pydantic parses a stored ISO string into a `pyDate`; `date.fromisoformat`
accepts only strings. -/
inductive PyDateVal where
  | pyDate (day : Nat)
  | pyStr (day : Nat)
  deriving DecidableEq, Repr

/-- Embeds `datetime.date.fromisoformat`: a `date` object is not a `str`, so
passing one raises `TypeError`. -/
def fromisoformat : PyDateVal → Except PyErr Nat
  | .pyStr d => .ok d
  | .pyDate _ => .error (.typeError "fromisoformat: argument must be str")

/-- A validated `UserApp` pydantic instance. -/
structure UserApp where
  id : Option String
  email : String
  subscription_status : SubStatus
  daily_interaction_count : Nat
  daily_random_art_count_img : Nat
  last_interaction_date : Option PyDateVal
  last_random_art_date : Option PyDateVal
  daily_random_art_ids : List String
  deriving DecidableEq, Repr

/-- Embeds validation of the date-typed user fields: a stored ISO date
string becomes a parsed `date` object, `None` stays absent, anything else is
a validation error. -/
def validateUserDate : BVal → Option (Option PyDateVal)
  | .vIsoDate d => some (some (.pyDate d))
  | .vNull => some none
  | _ => none

/-- Embeds `UserApp(**user_data)` for the fields the random-pick flow reads:
the stored document's `_id`, counters, dates and seen-today list (absent
fields take the model defaults). -/
def validateUserApp (input : Doc) : Option UserApp := do
  let email ← match dlookup "email" input with
    | some (.vStr s) => some s
    | _ => none
  let status ← match dlookup "subscription_status" input with
    | some (.vStr "active") => some SubStatus.active
    | some (.vStr "inactive") => some SubStatus.inactive
    | some (.vStr "free_tier") => some SubStatus.free_tier
    | none => some SubStatus.free_tier
    | _ => none
  let dic ← match dlookup "daily_interaction_count" input with
    | some (.vNat n) => some n
    | none => some 0
    | _ => none
  let drac ← match dlookup "daily_random_art_count_img" input with
    | some (.vNat n) => some n
    | none => some 0
    | _ => none
  let lid ← validateUserDate ((dlookup "last_interaction_date" input).getD .vNull)
  let lrad ← validateUserDate ((dlookup "last_random_art_date" input).getD .vNull)
  let ids ← match dlookup "daily_random_art_ids" input with
    | some (.vStrList l) => some l
    | none => some []
    | _ => none
  let uid := match dlookup "_id" input with
    | some (.vStr s) => some s
    | some (.vOid h) => some h
    | _ => none
  return { id := uid, email := email, subscription_status := status,
           daily_interaction_count := dic, daily_random_art_count_img := drac,
           last_interaction_date := lid, last_random_art_date := lrad,
           daily_random_art_ids := ids }

/-- A fresh `UserApp(_id=uid, email=email)` with the model defaults, as
`UserManager.check_user` builds on the create path. -/
def freshUserApp (uid email : String) : UserApp :=
  { id := some uid, email := email, subscription_status := .free_tier,
    daily_interaction_count := 0, daily_random_art_count_img := 0,
    last_interaction_date := none, last_random_art_date := none,
    daily_random_art_ids := [] }

/-- Embeds `UserManager.check_user`: look the user up by `_id`; absent means
insert a fresh default record and return it; present means re-validate the
stored document (a pydantic failure there raises). -/
def check_user (users : List Doc) (uid email : String) : Except PyErr UserApp :=
  match users.find? (fun d => dlookup "_id" d = some (.vStr uid)) with
  | none => .ok (freshUserApp uid email)
  | some d =>
      match validateUserApp d with
      | none => .error (.validationError "UserApp")
      | some u => .ok u

/-! ## Document-store write effects -/

/-- Mongo `$set` applied to one document: each payload field is written in
place (existing keys keep their position, new keys append). -/
def applySetDoc (d : Doc) (payload : Doc) : Doc :=
  stompOriginal payload d

/-- One `update_one` on the `artworks` collection: the `_id` filter value
and the `$set` payload. -/
structure ArtworkWrite where
  filterId : BVal
  setPayload : Doc
  deriving DecidableEq, Repr

/-- An update operation on the `users` collection. -/
inductive UserOp where
  | uset (fields : Doc)
  | uinc (fields : List (String × Nat))
  deriving DecidableEq, Repr

/-- One `update_one` on the `users` collection, filtered by `_id`. -/
structure UserWrite where
  filterId : String
  op : UserOp
  deriving DecidableEq, Repr

/-- Apply an artwork `$set` write to the collection. -/
def applyArtworkWrite (artworks : List Doc) (w : ArtworkWrite) : List Doc :=
  artworks.map (fun d =>
    if dlookup "_id" d = some w.filterId then applySetDoc d w.setPayload else d)

/-- Apply a sequence of artwork writes in order. -/
def applyArtworkWrites (artworks : List Doc) (ws : List ArtworkWrite) : List Doc :=
  ws.foldl applyArtworkWrite artworks

/-! ## Picture-of-the-day flow (`ArtManagerService.get_picture_of_the_day`) -/

/-- Decidable equality on `Except`, needed to decide closed facts about flow
results. -/
instance {ε α : Type} [DecidableEq ε] [DecidableEq α] : DecidableEq (Except ε α) :=
  fun x y =>
    match x, y with
    | .ok a, .ok b =>
        if h : a = b then .isTrue (congrArg _ h)
        else .isFalse (fun hh => h (Except.ok.inj hh))
    | .error a, .error b =>
        if h : a = b then .isTrue (congrArg _ h)
        else .isFalse (fun hh => h (Except.error.inj hh))
    | .ok _, .error _ => .isFalse (fun hh => Except.noConfusion hh)
    | .error _, .ok _ => .isFalse (fun hh => Except.noConfusion hh)

/-- Everything one call to the flow produces: the user- and artwork-collection
writes it issued (in order, including those issued before a raised
exception), whether the LLM enrichment worker was invoked, and the returned
validated record or raised error. -/
structure FlowOut where
  userWrites : List UserWrite
  artworkWrites : List ArtworkWrite
  llmWorkerInvoked : Bool
  result : Except PyErr Doc
  deriving DecidableEq, Repr

/-- The python message raised by `user["daily_random_art_count_img"] = 0`:
pydantic models define no item assignment (quote marks elided). -/
def itemAssignMsg : String := "UserApp object does not support item assignment"

/-- The `$set` payload of the lazy-reset update (lines 82-90): it zeroes the
counter and stamps the date; it does not mention `daily_random_art_ids`. -/
def resetRandomArtSet (today : Nat) : Doc :=
  [("daily_random_art_count_img", .vNat 0), ("last_random_art_date", .vIsoDate today)]

/-- The enrichment tail of the flow (lines 129-178), shared by both the
by-id and the random paths.  If `details_in_image` is falsy the worker is
invoked; every exception it raises is caught and the original record is
returned instead (re-validated, which may itself raise); on success the
worker's output dictionary is produced by `model_dump()` and then *every*
field of the original raw document is copied over it, the stomped dictionary
is re-validated, and its alias-keyed non-null dump minus `_id` is written
back when nonempty. -/
def enrichAndReturn (artwork_doc : Doc) (llmOutcome : Except String Doc)
    (uw : List UserWrite) : FlowOut :=
  if ¬ pyTruthyAt artwork_doc "details_in_image" then
    match llm_generate_artwork_metadata artwork_doc llmOutcome with
    | .error _ =>
        match validateArtworkData artwork_doc with
        | none => ⟨uw, [], true, .error (.validationError "ArtworkData")⟩
        | some a => ⟨uw, [], true, .ok a⟩
    | .ok res =>
        let merged := stompOriginal artwork_doc (modelDumpPlain res)
        match validateArtworkData merged with
        | none => ⟨uw, [], true, .error (.validationError "ArtworkData")⟩
        | some final =>
            let payload := delKey "_id" (modelDumpAliasNoNone final)
            let aw := if payload = [] then ([] : List ArtworkWrite)
              else [⟨(dlookup "_id" artwork_doc).getD .vNull, payload⟩]
            ⟨uw, aw, true, .ok final⟩
  else
    match validateArtworkData artwork_doc with
    | none => ⟨uw, [], false, .error (.validationError "ArtworkData")⟩
    | some a => ⟨uw, [], false, .ok a⟩

/-- The no-id branch (lines 76-122): load or create the user; read
`user.last_random_art_date` — a pydantic-parsed `date` object when set — and
feed it to `date.fromisoformat`, which only accepts strings; on a falsy
stored date take the lazy-reset branch, whose in-memory step
`user["daily_random_art_count_img"] = 0` is item assignment on a pydantic
model; below the quota, `$sample` one artwork and `$inc` the counter; at the
quota, return the first `daily_art_for_user` document in `display_order`
(validating every document of that collection first). -/
def randomPickBranch (uid email : String) (today : Nat)
    (users dailyArt : List Doc) (sample : Option Doc)
    (llmOutcome : Except String Doc) : FlowOut :=
  match check_user users uid email with
  | .error e => ⟨[], [], false, .error e⟩
  | .ok user =>
      match user.last_random_art_date with
      | none =>
          ⟨[⟨uid, .uset (resetRandomArtSet today)⟩], [], false,
           .error (.typeError itemAssignMsg)⟩
      | some pv =>
          match fromisoformat pv with
          | .error e => ⟨[], [], false, .error e⟩
          | .ok lastDay =>
              if lastDay < today then
                ⟨[⟨uid, .uset (resetRandomArtSet today)⟩], [], false,
                 .error (.typeError itemAssignMsg)⟩
              else if user.daily_random_art_count_img < 5 then
                match sample with
                | none =>
                    ⟨[], [], false,
                     .error (.http 404 "No artworks available to choose from.")⟩
                | some doc =>
                    enrichAndReturn doc llmOutcome
                      [⟨uid, .uinc [("daily_random_art_count_img", 1)]⟩]
              else
                match dailyArt.mapM validateArtworkData with
                | none => ⟨[], [], false, .error (.validationError "ArtworkData")⟩
                | some [] =>
                    ⟨[], [], false,
                     .error (.http 404 "Daily artworks are not configured yet. Please check back later.")⟩
                | some (a :: _) => ⟨[], [], false, .ok a⟩

/-- Case-insensitive ObjectId equality between a document's `_id` and a
requested hex string, as `find_one` with an `ObjectId` filter compares. -/
def docHasOid (id : String) (d : Doc) : Bool :=
  match dlookup "_id" d with
  | some (.vOid h) => hexLower h = hexLower id
  | _ => false

/-- Embeds `ArtManagerService.get_picture_of_the_day`.  A truthy `id` must
be a valid ObjectId (else 400) and is fetched directly (404 when absent); a
falsy `id` takes the random branch.  `sample` is the `$sample` oracle
(`none` when `artworks` is empty); `dailyArt` is the `daily_art_for_user`
collection already sorted ascending by `display_order`. -/
def get_picture_of_the_day (uid email : String) (idArg : Option String)
    (today : Nat) (artworks users dailyArt : List Doc) (sample : Option Doc)
    (llmOutcome : Except String Doc) : FlowOut :=
  match idArg with
  | some id =>
      if id = "" then
        randomPickBranch uid email today users dailyArt sample llmOutcome
      else if ¬ is_valid_object_id id then
        ⟨[], [], false, .error (.http 400 "Invalid artwork ID format.")⟩
      else
        match artworks.find? (docHasOid id) with
        | none =>
            ⟨[], [], false,
             .error (.http 404 ("Artwork with ID " ++ id ++ " not found."))⟩
        | some doc => enrichAndReturn doc llmOutcome []
  | none => randomPickBranch uid email today users dailyArt sample llmOutcome

/-! ## Subscription upsert (`engine/routes/user_route.py`) -/

/-- The request body: `new_status` is a required field of the pydantic
payload model (a request without it is rejected by validation before the
handler runs), `subscription_provider_id` optional. -/
structure UserSubscriptionPayload where
  new_status : SubStatus
  subscription_provider_id : Option String
  deriving DecidableEq, Repr

/-- The handler's JSON reply. -/
structure SubResponse where
  status : String
  message : String
  user_id : BVal
  deriving DecidableEq, Repr

/-- The first field path named by both update operators, if any.  MongoDB
statically requires the field paths of `$set` and `$setOnInsert` (like all
update operators of one update document) to be disjoint and rejects the
update with a `ConflictingUpdateOperators` write error otherwise, on the
update path and the insert path alike. -/
def firstConflictKey (a b : Doc) : Option String :=
  (keysOf a).find? (fun k => (dlookup k b).isSome)

/-- Embeds `find_one_and_update` with `upsert=True` and
`ReturnDocument.AFTER` on the `users` collection, filtered by `_id`:
after the conflict check, an existing document gets the `$set` payload; a
missing one is seeded from the filter, then `$setOnInsert`, then `$set`. -/
def find_one_and_update_upsert (users : List Doc) (uid : String)
    (setF setOnInsert : Doc) : Except PyErr (Doc × List Doc) :=
  match firstConflictKey setF setOnInsert with
  | some k =>
      .error (.operationFailure
        ("Updating the path " ++ k ++ " would create a conflict at " ++ k))
  | none =>
      match users.find? (fun d => dlookup "_id" d = some (.vStr uid)) with
      | some d =>
          let d' := applySetDoc d setF
          .ok (d', users.map (fun x =>
            if dlookup "_id" x = some (.vStr uid) then d' else x))
      | none =>
          let d' := applySetDoc (applySetDoc [("_id", .vStr uid)] setOnInsert) setF
          .ok (d', users ++ [d'])

/-- Embeds the `POST /user/subscription` handler `update_own_subscription`:
`uid` and `email` come from the verified token; the `$set` fields are the
posted status, the provider id when supplied, and an updated-at stamp; the
`$setOnInsert` fields are the token id and email, a created-at stamp and the
`free_tier` default status.  A raised store error propagates (the route has
no handler for it, so it surfaces as a 500). -/
def update_own_subscription (uid email : String)
    (payload : UserSubscriptionPayload) (now : Nat) (users : List Doc) :
    Except PyErr (SubResponse × List Doc) :=
  let update_fields : Doc :=
    [("subscription_status", .vStr payload.new_status.value)]
      ++ (match payload.subscription_provider_id with
          | some p => [("subscription_provider_id", BVal.vStr p)]
          | none => [])
      ++ [("updated_at", .vNat now)]
  let set_on_insert : Doc :=
    [("_id", .vStr uid), ("email", .vStr email), ("created_at", .vNat now),
     ("subscription_status", .vStr "free_tier")]
  match find_one_and_update_upsert users uid update_fields set_on_insert with
  | .error e => .error e
  | .ok (updated, users') =>
      .ok ({ status := "success",
             message := "User " ++ pyStrOf ((dlookup "email" updated).getD .vNull)
               ++ " subscription status updated to "
               ++ pyStrOf ((dlookup "subscription_status" updated).getD .vNull)
               ++ ".",
             user_id := (dlookup "_id" updated).getD .vNull }, users')

/-! ## Concrete scenarios -/

/-- A valid ObjectId hex string. -/
def oidA : String := "aaaaaaaaaaaaaaaaaaaaaaaa"

/-- A second valid ObjectId hex string. -/
def oidB : String := "bbbbbbbbbbbbbbbbbbbbbbbb"

/-- A third valid ObjectId hex string. -/
def oidC : String := "cccccccccccccccccccccccc"

/-- A stored artwork lacking the `details_in_image` key but carrying a
`year`, as a sparse scraper import would. -/
def docSunset : Doc :=
  [("_id", .vOid oidA), ("artwork_title", .vStr "Sunset"),
   ("artist_name", .vStr "Vincent"),
   ("image_url", .vStr "http://img.example/s.jpg"), ("year", .vStr "1800")]

/-- A parsed LLM response disagreeing with the stored `year`. -/
def llmSunset : Doc :=
  [("details_in_image", .vStr "A blazing sunset over water."),
   ("year", .vStr "1900"), ("description", .vStr "An evening scene.")]

/-- A stored artwork whose `details_in_image` is present but empty. -/
def docEmptyDetails : Doc :=
  [("_id", .vOid oidB), ("artwork_title", .vStr "Study"),
   ("image_url", .vStr "http://img.example/t.jpg"),
   ("details_in_image", .vStr "")]

/-- A stored artwork with no `details_in_image` key at all. -/
def docNoDetails : Doc :=
  [("_id", .vOid oidC), ("artwork_title", .vStr "Ruins"),
   ("image_url", .vStr "http://img.example/r.jpg")]

/-- A parsed LLM response with a non-empty description of the image. -/
def llmDetails : Doc :=
  [("details_in_image", .vStr "A careful study."), ("year", .vStr "1870")]

/-- The picture-of-the-day flow asked for `docSunset` by id, with the LLM
answering `llmSunset`. -/
def c1Flow : FlowOut :=
  get_picture_of_the_day "u1" "u1@example.com" (some oidA) 100
    [docSunset] [] [] none (.ok llmSunset)

/-- First get-picture-details call on the empty-details record. -/
def c5First : FlowOut :=
  get_picture_of_the_day "u1" "u1@example.com" (some oidB) 100
    [docEmptyDetails] [] [] none (.ok llmDetails)

/-- The artworks collection after the first call's write-back. -/
def c5Db2 : List Doc := applyArtworkWrites [docEmptyDetails] c5First.artworkWrites

/-- Second get-picture-details call for the same id on the updated store. -/
def c5Second : FlowOut :=
  get_picture_of_the_day "u1" "u1@example.com" (some oidB) 100
    c5Db2 [] [] none (.ok llmDetails)

/-- First call on the record with no details key. -/
def c5GoodFirst : FlowOut :=
  get_picture_of_the_day "u1" "u1@example.com" (some oidC) 100
    [docNoDetails] [] [] none (.ok llmDetails)

/-- The store after that call persisted its enrichment. -/
def c5GoodDb2 : List Doc := applyArtworkWrites [docNoDetails] c5GoodFirst.artworkWrites

/-- Second call for the same id; the LLM oracle now errors, which is
irrelevant when the worker is not invoked. -/
def c5GoodSecond : FlowOut :=
  get_picture_of_the_day "u1" "u1@example.com" (some oidC) 100
    c5GoodDb2 [] [] none (.error "worker must not run")

/-- A stored user at the daily quota who last viewed today (day 100), with a
nonempty seen-today list. -/
def userQuotaDoc : Doc :=
  [("_id", .vStr "u1"), ("email", .vStr "u1@example.com"),
   ("subscription_status", .vStr "free_tier"),
   ("daily_interaction_count", .vNat 0),
   ("daily_random_art_count_img", .vNat 5),
   ("last_random_art_date", .vIsoDate 100),
   ("daily_random_art_ids", .vStrList [oidA])]

/-- The same user but with the last view a day earlier (day 99). -/
def userYesterdayDoc : Doc :=
  [("_id", .vStr "u2"), ("email", .vStr "u2@example.com"),
   ("subscription_status", .vStr "free_tier"),
   ("daily_interaction_count", .vNat 0),
   ("daily_random_art_count_img", .vNat 5),
   ("last_random_art_date", .vIsoDate 99),
   ("daily_random_art_ids", .vStrList [oidA])]

/-- A configured `daily_art_for_user` document. -/
def dailyArtDoc : Doc :=
  [("_id", .vOid oidB), ("artwork_title", .vStr "Daily pick"),
   ("image_url", .vStr "http://img.example/d.jpg"),
   ("details_in_image", .vStr "Filled."), ("display_order", .vNat 1)]

/-- Random-pick request (no id) for the at-quota user on day 100. -/
def c2Flow : FlowOut :=
  get_picture_of_the_day "u1" "u1@example.com" none 100
    [docSunset] [userQuotaDoc] [dailyArtDoc] (some docSunset) (.error "llm")

/-- Random-pick request for the user whose stored date is yesterday. -/
def c3Flow : FlowOut :=
  get_picture_of_the_day "u2" "u2@example.com" none 100
    [docSunset] [userYesterdayDoc] [dailyArtDoc] (some docSunset) (.error "llm")

/-- Random-pick request for a brand-new user (no stored record, so no stored
date: the lazy-reset condition holds). -/
def c3FreshFlow : FlowOut :=
  get_picture_of_the_day "u3" "u3@example.com" none 100
    [docSunset] [] [dailyArtDoc] (some docSunset) (.error "llm")

/-! ## Association-list lemmas -/

theorem dlookup_setKey_self (d : Doc) (k : String) (v : BVal) :
    dlookup k (setKey d k v) = some v := by
  induction d with
  | nil => simp [setKey, dlookup]
  | cons kv rest ih =>
      by_cases h : kv.1 = k
      · simp [setKey, h, dlookup]
      · simp [setKey, h, dlookup, ih]

theorem dlookup_setKey_ne (d : Doc) (k k' : String) (v : BVal) (h : k' ≠ k) :
    dlookup k' (setKey d k v) = dlookup k' d := by
  induction d with
  | nil => simp [setKey, dlookup, Ne.symm h]
  | cons kv rest ih =>
      by_cases hk : kv.1 = k
      · subst hk
        simp [setKey, dlookup, Ne.symm h]
      · simp [setKey, hk, dlookup, ih]

theorem stompOriginal_cons (kv : String × BVal) (rest acc : Doc) :
    stompOriginal (kv :: rest) acc = stompOriginal rest (setKey acc kv.1 kv.2) := by
  simp [stompOriginal]

theorem dlookup_stomp_not_mem :
    ∀ (l acc : Doc) (k : String), k ∉ keysOf l →
      dlookup k (stompOriginal l acc) = dlookup k acc := by
  intro l
  induction l with
  | nil => intro acc k _; simp [stompOriginal]
  | cons kv rest ih =>
      intro acc k h
      simp only [keysOf, List.map_cons, List.mem_cons] at h
      push_neg at h
      rw [stompOriginal_cons, ih _ _ (by simpa [keysOf] using h.2),
        dlookup_setKey_ne _ _ _ _ h.1]

theorem dlookup_stomp_mem :
    ∀ (l acc : Doc) (k : String) (v : BVal), (keysOf l).Nodup → (k, v) ∈ l →
      dlookup k (stompOriginal l acc) = some v := by
  intro l
  induction l with
  | nil => intro acc k v _ h; cases h
  | cons kv rest ih =>
      intro acc k v hnd h
      have hnd' : (kv.1 :: keysOf rest).Nodup := by simpa [keysOf] using hnd
      rcases List.mem_cons.mp h with h1 | h1
      · have hk : kv.1 = k := by rw [← h1]
        have hv : kv.2 = v := by rw [← h1]
        have hnot : k ∉ keysOf rest := hk ▸ (List.nodup_cons.mp hnd').1
        rw [stompOriginal_cons, dlookup_stomp_not_mem _ _ _ hnot, ← hk, ← hv,
          dlookup_setKey_self]
      · rw [stompOriginal_cons]
        exact ih _ _ _ (List.nodup_cons.mp hnd').2 h1

theorem dlookup_some_mem (l : Doc) (k : String) (v : BVal)
    (h : dlookup k l = some v) : (k, v) ∈ l := by
  induction l with
  | nil => simp [dlookup] at h
  | cons kv rest ih =>
      by_cases hk : kv.1 = k
      · simp only [dlookup, hk, if_pos rfl] at h
        cases h
        exact List.mem_cons.mpr (Or.inl (by rw [← hk]))
      · simp only [dlookup, hk, if_neg hk] at h
        exact List.mem_cons.mpr (Or.inr (ih h))

theorem dlookup_none_not_mem (l : Doc) (k : String)
    (h : dlookup k l = none) : k ∉ keysOf l := by
  induction l with
  | nil => simp [keysOf]
  | cons kv rest ih =>
      by_cases hk : kv.1 = k
      · simp [dlookup, hk] at h
      · simp only [dlookup, if_neg hk] at h
        simp only [keysOf, List.map_cons, List.mem_cons]
        push_neg
        exact ⟨fun hh => hk hh.symm, by simpa [keysOf] using ih h⟩

theorem proxy_image_response_reduce (url : String)
    (h : (strStarts url "http://" || strStarts url "https://") = true)
    (st : Nat) (ct : Option String) (body : List Nat) :
    proxy_image url (.response st ct body) =
      if st < 200 ∨ 300 ≤ st then
        .error (.http st ("External image source returned error: " ++ toString st))
      else
        match ct with
        | none => .error (.http 415 "Proxied content is not a supported image type.")
        | some c =>
            if ¬ strStarts c "image/" then
              .error (.http 415 "Proxied content is not a supported image type.")
            else .ok ⟨c, body⟩ := by
  simp [proxy_image, h]

/-! ## Claim theorems -/

/-- C9: the scraper's year extraction recognizes the three trailing
parenthetical forms `(YYYY)`, `(YYYY-YY)` / `(YYYY–YYYY)` and
`(Circa YYYY...)`, returning the first four-digit year of each; the spec's
example titles yield 1887, 1870 and 1920, and a title without such a
trailing parenthetical yields no year. -/
theorem extract_year_trailing_forms :
    extract_year "Sunset (1887)" = some "1887" ∧
    extract_year "Study (1870-75)" = some "1870" ∧
    extract_year "Voyage (1901–1904)" = some "1901" ∧
    extract_year "Ruins (Circa 1920, oil)" = some "1920" ∧
    extract_year "Ruins (Circa 1920)" = some "1920" ∧
    extract_year "The Scream" = none := by decide

/-- C10: `parse_result` applied to an empty list does not return an empty
list; the nonempty-list branch is skipped and the fallthrough indexes the
list with the string key, raising a `TypeError`. -/
theorem parse_result_empty_list_raises :
    parse_result (.docList []) =
      .error (.typeError "list indices must be integers or slices, not str") := by
  decide

/-- C8: the normalizer turns a raw document with an `_id` into the same
document with `db_id` holding the stringified identifier and no `_id` key
left, and maps a nonempty list element-wise in order. -/
theorem parse_result_normalizes (X Y : BVal) :
    parse_result (.single [("_id", X), ("a", .vNat 1)]) =
      .ok (.single [("a", .vNat 1), ("db_id", .vStr (pyStrOf X))]) ∧
    dlookup "_id" [("a", BVal.vNat 1), ("db_id", .vStr (pyStrOf X))] = none ∧
    parse_result (.docList [[("_id", X), ("a", .vNat 1)], [("_id", Y), ("a", .vNat 2)]]) =
      .ok (.docList [[("a", .vNat 1), ("db_id", .vStr (pyStrOf X))],
                     [("a", .vNat 2), ("db_id", .vStr (pyStrOf Y))]]) := by
  refine ⟨rfl, rfl, rfl⟩

/-- C8 witness: the normalizer at a concrete ObjectId-keyed document. -/
theorem parse_result_normalizes_witness :
    parse_result (.single [("_id", BVal.vOid "ab12"), ("a", .vNat 1)]) =
      .ok (.single [("a", BVal.vNat 1), ("db_id", .vStr "ab12")]) :=
  (parse_result_normalizes (.vOid "ab12") (.vOid "ff")).1

/-- C6: the image proxy maps each failure of a request to exactly one
outcome: a URL not starting with a web scheme is rejected 400 without
consulting the fetch at all; a timeout gives 504; any other transport error
gives 502 carrying the underlying message; a non-2xx upstream status is
proxied as that status; a 2xx response without an `image/` content type is
415; and otherwise the bytes stream out under the upstream content type. -/
theorem proxy_image_failure_mapping :
    (∀ (url : String) (f f' : FetchOutcome),
        (strStarts url "http://" || strStarts url "https://") = false →
        proxy_image url f = proxy_image url f' ∧
        proxy_image url f =
          .error (.http 400 "Invalid URL scheme. Must be HTTP or HTTPS.")) ∧
    (∀ (url : String),
        (strStarts url "http://" || strStarts url "https://") = true →
        proxy_image url .timeout =
          .error (.http 504 "Request to external image source timed out.") ∧
        (∀ m, proxy_image url (.transportError m) =
          .error (.http 502 ("Failed to retrieve image from external source: " ++ m))) ∧
        (∀ st ct body, st < 200 ∨ 300 ≤ st →
          proxy_image url (.response st ct body) =
            .error (.http st ("External image source returned error: " ++ toString st))) ∧
        (∀ st body, 200 ≤ st → st < 300 →
          proxy_image url (.response st none body) =
            .error (.http 415 "Proxied content is not a supported image type.")) ∧
        (∀ st c body, 200 ≤ st → st < 300 → strStarts c "image/" = false →
          proxy_image url (.response st (some c) body) =
            .error (.http 415 "Proxied content is not a supported image type.")) ∧
        (∀ st c body, 200 ≤ st → st < 300 → strStarts c "image/" = true →
          proxy_image url (.response st (some c) body) = .ok ⟨c, body⟩)) := by
  constructor
  · intro url f f' h
    constructor <;> simp [proxy_image, h]
  · intro url h
    refine ⟨by simp [proxy_image, h], fun m => by simp [proxy_image, h],
      ?_, ?_, ?_, ?_⟩
    · intro st ct body hst
      rw [proxy_image_response_reduce url h, if_pos hst]
    · intro st body h1 h2
      rw [proxy_image_response_reduce url h, if_neg (by omega)]
    · intro st c body h1 h2 hc
      rw [proxy_image_response_reduce url h, if_neg (by omega)]
      simp [hc]
    · intro st c body h1 h2 hc
      rw [proxy_image_response_reduce url h, if_neg (by omega)]
      simp [hc]

/-- C6 witness: the proxy outcomes at concrete inputs. -/
theorem proxy_image_failure_mapping_witness :
    proxy_image "ftp://x" .timeout =
      .error (.http 400 "Invalid URL scheme. Must be HTTP or HTTPS.") ∧
    proxy_image "https://i.example/x" .timeout =
      .error (.http 504 "Request to external image source timed out.") ∧
    proxy_image "https://i.example/x" (.response 404 none []) =
      .error (.http 404 "External image source returned error: 404") ∧
    proxy_image "https://i.example/x" (.response 200 (some "text/html") []) =
      .error (.http 415 "Proxied content is not a supported image type.") ∧
    proxy_image "https://i.example/x" (.response 200 (some "image/png") [137, 80]) =
      .ok ⟨"image/png", [137, 80]⟩ := by
  refine ⟨(proxy_image_failure_mapping.1 "ftp://x" .timeout .timeout (by decide)).2,
    (proxy_image_failure_mapping.2 "https://i.example/x" (by decide)).1,
    (proxy_image_failure_mapping.2 "https://i.example/x" (by decide)).2.2.1
      404 none [] (by omega),
    (proxy_image_failure_mapping.2 "https://i.example/x" (by decide)).2.2.2.2.1
      200 "text/html" [] (by omega) (by omega) (by decide),
    (proxy_image_failure_mapping.2 "https://i.example/x" (by decide)).2.2.2.2.2
      200 "image/png" [137, 80] (by omega) (by omega) (by decide)⟩

/-- C7: the batched fetch accepts one id or a list; the empty list returns
an empty result without touching the store; any syntactically invalid id
fails the whole call with an invalid-id error naming an offending value; and
with all ids valid one `$in` lookup returns exactly the requested documents
that exist, silently dropping missing ids. -/
theorem fetch_artworks_by_ids_contract :
    (∀ (a a' : List Doc),
        fetch_artworks_by_ids (.inr []) a = .ok [] ∧
        fetch_artworks_by_ids (.inr []) a = fetch_artworks_by_ids (.inr []) a') ∧
    (∀ (s : String) (artworks : List Doc),
        fetch_artworks_by_ids (.inl s) artworks =
          fetch_artworks_by_ids (.inr [s]) artworks) ∧
    (∀ (ids : List String) (artworks : List Doc),
        (∃ s ∈ ids, is_valid_object_id s = false) →
        ∃ bad ∈ ids, is_valid_object_id bad = false ∧
          fetch_artworks_by_ids (.inr ids) artworks =
            .error (.valueError ("One or more IDs are invalid: " ++ invalid_oid_msg bad))) ∧
    (∀ (ids : List String) (artworks : List Doc),
        (∀ s ∈ ids, is_valid_object_id s = true) →
        fetch_artworks_by_ids (.inr ids) artworks =
          .ok (artworks.filter (docIdRequested ids)) ∧
        (artworks.filter (docIdRequested ids)).Sublist artworks ∧
        (∀ d ∈ artworks.filter (docIdRequested ids), docIdRequested ids d = true)) := by
  refine ⟨fun a a' => ⟨rfl, rfl⟩, fun s artworks => rfl, ?_, ?_⟩
  · intro ids artworks h
    obtain ⟨s, hs, hinv⟩ := h
    have hsome : (ids.find? (fun s => !is_valid_object_id s)).isSome :=
      List.find?_isSome.mpr ⟨s, hs, by simp [hinv]⟩
    obtain ⟨bad, hfind⟩ := Option.isSome_iff_exists.mp hsome
    have hmem : bad ∈ ids := List.mem_of_find?_eq_some hfind
    have hbad : is_valid_object_id bad = false := by
      have := List.find?_some hfind
      simpa using this
    refine ⟨bad, hmem, hbad, ?_⟩
    have hne : ids ≠ [] := by
      intro hh
      rw [hh] at hs
      cases hs
    simp [fetch_artworks_by_ids, hne, hfind]
  · intro ids artworks h
    have hnone : ids.find? (fun s => !is_valid_object_id s) = none :=
      List.find?_eq_none.mpr (fun x hx => by simp [h x hx])
    by_cases hids : ids = []
    · subst hids
      have hfilter : artworks.filter (docIdRequested []) = [] := by
        apply List.filter_eq_nil_iff.mpr
        intro d _
        unfold docIdRequested
        cases hv : dlookup "_id" d with
        | none => simp
        | some v => cases v <;> simp
      refine ⟨by simp [fetch_artworks_by_ids, hfilter], ?_, ?_⟩
      · rw [hfilter]; exact List.nil_sublist _
      · intro d hd; rw [hfilter] at hd; cases hd
    · refine ⟨by simp [fetch_artworks_by_ids, hids, hnone], List.filter_sublist _,
        fun d hd => (List.mem_filter.mp hd).2⟩

/-- C7 witness: an invalid id is named in the error, and a valid batched
lookup returns the existing record. -/
theorem fetch_artworks_by_ids_contract_witness :
    fetch_artworks_by_ids (.inr ["zz"]) [] =
      .error (.valueError ("One or more IDs are invalid: " ++ invalid_oid_msg "zz")) ∧
    fetch_artworks_by_ids (.inr [oidA, oidB]) [docSunset] = .ok [docSunset] := by
  constructor
  · obtain ⟨bad, hmem, _, heq⟩ :=
      fetch_artworks_by_ids_contract.2.2.1 ["zz"] [] ⟨"zz", by decide, by decide⟩
    have : bad = "zz" := by
      cases List.mem_singleton.mp hmem
      rfl
    rw [this] at heq
    exact heq
  · have h := (fetch_artworks_by_ids_contract.2.2.2 [oidA, oidB] [docSunset]
      (by decide)).1
    rw [h]
    decide

/-- C1 counterexample: in the flow triggered for `docSunset` (which lacks
`details_in_image`), the enrichment worker's output carries `year = 1900`,
yet both the record returned and the `$set` payload persisted carry the
original `year = 1800`: the LLM value does not take precedence. -/
theorem enrichment_merge_llm_precedence_false :
    dlookup "year"
        ((llm_generate_artwork_metadata docSunset (.ok llmSunset)).toOption.getD [])
      = some (.vStr "1900") ∧
    c1Flow.llmWorkerInvoked = true ∧
    c1Flow.result.toOption.isSome = true ∧
    dlookup "year" (c1Flow.result.toOption.getD []) = some (.vStr "1800") ∧
    dlookup "year" ((c1Flow.artworkWrites.headD ⟨.vNull, []⟩).setPayload)
      = some (.vStr "1800") ∧
    BVal.vStr "1800" ≠ BVal.vStr "1900" := by decide

/-- C1 (amended): the caller's merge loop copies every original stored field
over the enrichment output, so the original document takes precedence on
every key it contains, and an enrichment value survives only on keys the
original lacks; concretely, the flow returns and persists the stored
`year = 1800`, not the enrichment's 1900. -/
theorem enrichment_merge_original_precedence :
    (∀ (doc res : Doc) (k : String) (v : BVal), (keysOf doc).Nodup →
        dlookup k doc = some v →
        dlookup k (stompOriginal doc (modelDumpPlain res)) = some v) ∧
    (∀ (doc res : Doc) (k : String), dlookup k doc = none →
        dlookup k (stompOriginal doc (modelDumpPlain res)) = dlookup k res) ∧
    (dlookup "year" (c1Flow.result.toOption.getD []) = some (.vStr "1800") ∧
     dlookup "year" ((c1Flow.artworkWrites.headD ⟨.vNull, []⟩).setPayload)
       = some (.vStr "1800")) := by
  refine ⟨?_, ?_, by decide, by decide⟩
  · intro doc res k v hnd hk
    exact dlookup_stomp_mem doc (modelDumpPlain res) k v hnd (dlookup_some_mem doc k v hk)
  · intro doc res k hk
    exact dlookup_stomp_not_mem doc (modelDumpPlain res) k (dlookup_none_not_mem doc k hk)

/-- C1 witness: the merge precedence theorem applied at the concrete
scenario. -/
theorem enrichment_merge_original_precedence_witness :
    dlookup "year" (stompOriginal docSunset (modelDumpPlain llmSunset))
      = some (.vStr "1800") :=
  enrichment_merge_original_precedence.1 docSunset llmSunset "year" (.vStr "1800")
    (by decide) (by decide)

/-- C5 counterexample: for the stored record carrying `details_in_image` as
the empty string, the first call invokes the worker and succeeds, yet the
store still holds the empty string afterwards (the original value stomped
the enrichment), so the second call for the same id invokes the worker
again: enrichment is not idempotent. -/
theorem enrichment_not_idempotent_on_empty_details :
    pyTruthyAt docEmptyDetails "details_in_image" = false ∧
    c5First.llmWorkerInvoked = true ∧
    c5First.result.toOption.isSome = true ∧
    dlookup "details_in_image"
        ((llm_generate_artwork_metadata docEmptyDetails (.ok llmDetails)).toOption.getD [])
      = some (.vStr "A careful study.") ∧
    dlookup "details_in_image" (c5Db2.headD []) = some (.vStr "") ∧
    c5Second.llmWorkerInvoked = true := by decide

/-- C5 (amended): enrichment is idempotent exactly when the persisted `$set`
payload carries a non-empty `details_in_image` string: applying such a
payload leaves a record on which the flow's enrichment tail never invokes
the worker and is independent of the LLM oracle; and concretely, for a
stored record with no `details_in_image` key at all, the first call
persists the enrichment's non-empty text and the second call does not
invoke the worker. -/
theorem enrichment_idempotent_when_details_key_absent :
    (∀ (d payload : Doc) (s : String) (llm llm' : Except String Doc)
        (uw : List UserWrite),
        (keysOf payload).Nodup →
        dlookup "details_in_image" payload = some (.vStr s) →
        s ≠ "" →
        (enrichAndReturn (applySetDoc d payload) llm uw).llmWorkerInvoked = false ∧
        enrichAndReturn (applySetDoc d payload) llm uw
          = enrichAndReturn (applySetDoc d payload) llm' uw) ∧
    (c5GoodFirst.llmWorkerInvoked = true ∧
     dlookup "details_in_image"
         ((c5GoodFirst.artworkWrites.headD ⟨.vNull, []⟩).setPayload)
       = some (.vStr "A careful study.") ∧
     dlookup "details_in_image" (c5GoodDb2.headD [])
       = some (.vStr "A careful study.") ∧
     c5GoodSecond.llmWorkerInvoked = false ∧
     c5GoodSecond.result.toOption.isSome = true) := by
  constructor
  · intro d payload s llm llm' uw hnd hkey hs
    have hl : dlookup "details_in_image" (applySetDoc d payload)
        = some (.vStr s) :=
      dlookup_stomp_mem payload d _ _ hnd (dlookup_some_mem payload _ _ hkey)
    have htr : pyTruthyAt (applySetDoc d payload) "details_in_image" = true := by
      unfold pyTruthyAt
      rw [hl]
      simp [pyTruthy, hs]
    constructor
    · unfold enrichAndReturn
      rw [htr]
      cases validateArtworkData (applySetDoc d payload) <;> simp
    · unfold enrichAndReturn
      rw [htr]
      simp
  · exact ⟨by decide, by decide, by decide, by decide, by decide⟩

/-- C5 witness: the idempotence theorem applied at a concrete record whose
persisted payload carries non-empty details. -/
theorem enrichment_idempotent_when_details_key_absent_witness :
    (enrichAndReturn
        (applySetDoc docNoDetails [("details_in_image", BVal.vStr "Filled.")])
        (.error "e") []).llmWorkerInvoked = false :=
  (enrichment_idempotent_when_details_key_absent.1 docNoDetails
    [("details_in_image", BVal.vStr "Filled.")] "Filled." (.error "e") (.ok [])
    [] (by decide) (by decide) (by decide)).1

/-- C2: for a stored user at the quota whose last view date equals today,
the random-pick request does not serve an id from the seen-today list: the
code reads `user.last_random_art_date` (a pydantic-parsed `date` object)
and passes it to `date.fromisoformat`, raising `TypeError`, so the request
fails with no writes, no sampling and no artwork at all. -/
theorem quota_reached_random_pick_crashes :
    (validateUserApp userQuotaDoc).map (fun u =>
        (u.daily_random_art_count_img, u.last_random_art_date,
         u.daily_random_art_ids))
      = some (5, some (.pyDate 100), [oidA]) ∧
    c2Flow = ⟨[], [], false,
      .error (.typeError "fromisoformat: argument must be str")⟩ := by decide

/-- C3: for a stored user whose last view date is yesterday, the random-pick
request raises `TypeError` in `date.fromisoformat` before any reset is
written, so no counter reset, no list clearing and no fresh sample happen;
and on the only path where the reset update is written (no stored date at
all), its `$set` payload does not touch `daily_random_art_ids` and the
request then raises `TypeError` on the pydantic item assignment instead of
serving an artwork. -/
theorem lazy_reset_crashes_and_skips_seen_list :
    (validateUserApp userYesterdayDoc).map (fun u =>
        (u.daily_random_art_count_img, u.last_random_art_date))
      = some (5, some (.pyDate 99)) ∧
    c3Flow = ⟨[], [], false,
      .error (.typeError "fromisoformat: argument must be str")⟩ ∧
    c3FreshFlow = ⟨[⟨"u3", .uset (resetRandomArtSet 100)⟩], [], false,
      .error (.typeError itemAssignMsg)⟩ ∧
    dlookup "daily_random_art_ids" (resetRandomArtSet 100) = none := by decide

/-- C4: every subscription post (the status field is required) builds an
update naming `subscription_status` in both `$set` and `$setOnInsert`, which
the store rejects as conflicting update operators, so the endpoint never
creates or updates a record and always raises. -/
theorem subscription_upsert_always_conflicts (uid email : String)
    (payload : UserSubscriptionPayload) (now : Nat) (users : List Doc) :
    update_own_subscription uid email payload now users =
      .error (.operationFailure
        "Updating the path subscription_status would create a conflict at subscription_status") := by
  unfold update_own_subscription find_one_and_update_upsert firstConflictKey keysOf
  cases payload.subscription_provider_id <;> simp [dlookup]

/-- C4 witness: the conflict at a concrete brand-new user post. -/
theorem subscription_upsert_always_conflicts_witness :
    update_own_subscription "u1" "u1@example.com" ⟨.active, none⟩ 5 [] =
      .error (.operationFailure
        "Updating the path subscription_status would create a conflict at subscription_status") :=
  subscription_upsert_always_conflicts "u1" "u1@example.com" ⟨.active, none⟩ 5 []

end ArtAtlas
